import Mathlib

/-!
Verification development for the `tastypie_swagger` package.

The package introspects tastypie resources and emits an OpenAPI 3.0.1
document.  The definitions below are a shallow embedding of
`tastypie_swagger/mapping.py` (the spec builder),
`tastypie_swagger/management/commands/build_api_docs.py` (the CLI command)
and the small amount of configuration machinery they read.

Python dictionaries are embedded as insertion-ordered association lists,
Python `dict.update` as `dictUpdate`, exceptions as `Except` results, and
the (unbounded) recursion of `build_parameters_from_filters` across related
resources is made total with an explicit fuel argument whose exhaustion
models Python's `RecursionError`.
-/

namespace TastypieSwagger

/-- JSON-ish values: the value space of the Python dictionaries that
`mapping.py` builds.  Objects are insertion-ordered association lists,
mirroring Python dict semantics. -/
inductive JsonVal : Type where
  | str (s : String) : JsonVal
  | bool (b : Bool) : JsonVal
  | num (n : Int) : JsonVal
  | arr (elems : List JsonVal) : JsonVal
  | obj (entries : List (String × JsonVal)) : JsonVal

/-- Set a single key in a Python dict: replace the value in place if the key
is present (preserving its position), otherwise append the new pair. -/
def dictSet (d : List (String × JsonVal)) (k : String) (v : JsonVal) :
    List (String × JsonVal) :=
  if d.any (fun kv => kv.1 == k) then
    d.map (fun kv => if kv.1 == k then (kv.1, v) else kv)
  else
    d ++ [(k, v)]

/-- Python `d.update(e)`: fold `dictSet` over the entries of `e` in order. -/
def dictUpdate (d e : List (String × JsonVal)) : List (String × JsonVal) :=
  e.foldl (fun acc kv => dictSet acc kv.1 kv.2) d

/-- Keys of an embedded dict, in insertion order. -/
def dictKeys (d : List (String × JsonVal)) : List String :=
  d.map (fun kv => kv.1)

/-- Keys of a `JsonVal.obj`; `[]` on non-objects. -/
def objKeys : JsonVal → List String
  | .obj es => dictKeys es
  | _ => []

/-- Append a value to a `JsonVal.arr`; other values are left unchanged.
Models Python `list.append` on a value fetched out of a dict. -/
def jsonArrPush : JsonVal → JsonVal → JsonVal
  | .arr l, v => .arr (l ++ [v])
  | j, _ => j

/-- Apply `f` to the value stored under `k` inside a `JsonVal.obj`. -/
def objModify (o : JsonVal) (k : String) (f : JsonVal → JsonVal) : JsonVal :=
  match o with
  | .obj es => .obj (es.map (fun kv => if kv.1 == k then (kv.1, f kv.2) else kv))
  | j => j

/-- Model of the in-place mutation `ops[k][innerK].append(v)` performed by
`build_detail_path` / `build_list_path` on an operations dict. -/
def jsonAppendAt (ops : List (String × JsonVal)) (k innerK : String)
    (v : JsonVal) : List (String × JsonVal) :=
  ops.map (fun kv =>
    if kv.1 == k then (kv.1, objModify kv.2 innerK (fun x => jsonArrPush x v))
    else kv)

/-- Hex digit for `\uXXXX` escapes. -/
def hexDigit (n : Nat) : Char :=
  if n < 10 then Char.ofNat (48 + n) else Char.ofNat (87 + n)

/-- Four-digit lowercase hex, as produced by `json.dumps` escapes. -/
def hex4 (n : Nat) : String :=
  String.mk [hexDigit (n / 4096 % 16), hexDigit (n / 256 % 16),
             hexDigit (n / 16 % 16), hexDigit (n % 16)]

/-- Escape one character the way `json.dumps` (with `ensure_ascii=True`,
its default) does. -/
def escapeJsonChar (c : Char) : String :=
  if c = '"' then "\\\""
  else if c = '\\' then "\\\\"
  else if c = '\n' then "\\n"
  else if c = '\t' then "\\t"
  else if c = '\r' then "\\r"
  else if c.toNat < 32 then "\\u" ++ hex4 c.toNat
  else if c.toNat < 127 then String.mk [c]
  else if c.toNat < 65536 then "\\u" ++ hex4 c.toNat
  else
    "\\u" ++ hex4 (55296 + (c.toNat - 65536) / 1024) ++
    "\\u" ++ hex4 (56320 + (c.toNat - 65536) % 1024)

/-- `json.dumps` rendering of a string literal. -/
def jsonDumpsString (s : String) : String :=
  "\"" ++ String.join (s.data.map escapeJsonChar) ++ "\""

/-- Interleave a separator (the `", "` of `json.dumps` default separators). -/
def joinSep (sep : String) : List String → String
  | [] => ""
  | [x] => x
  | x :: xs => x ++ sep ++ joinSep sep xs

mutual
/-- `json.dumps` with its default separators `(", ", ": ")` and
`ensure_ascii=True`, restricted to the value space the builder produces. -/
def jsonDumps : JsonVal → String
  | .str s => jsonDumpsString s
  | .bool b => if b then "true" else "false"
  | .num n => toString n
  | .arr l => "[" ++ joinSep ", " (jsonDumpsList l) ++ "]"
  | .obj es => "\x7b" ++ joinSep ", " (jsonDumpsEntries es) ++ "\x7d"

def jsonDumpsList : List JsonVal → List String
  | [] => []
  | v :: vs => jsonDumps v :: jsonDumpsList vs

def jsonDumpsEntries : List (String × JsonVal) → List String
  | [] => []
  | (k, v) :: kvs => (jsonDumpsString k ++ ": " ++ jsonDumps v) :: jsonDumpsEntries kvs
end

/-- Embedding of the exceptions the builder can raise:
`django.core.exceptions.ImproperlyConfigured` (messages elided),
`AttributeError` (a missing settings attribute or a failed `getattr`), and
`RecursionError` (exhaustion of the explicit fuel that models Python's
recursion limit in `build_parameters_from_filters`). -/
inductive PyErr : Type where
  | improperlyConfigured : PyErr
  | attributeError : PyErr
  | recursionError : PyErr
deriving DecidableEq

/-- One value of a resource's `filtering` schema entry: the sentinel `ALL`
(the integer 1), `ALL_WITH_RELATIONS` (2), an explicit collection of query
terms, or any other value (which the builder ignores). -/
inductive FilterVal : Type where
  | all : FilterVal
  | allWithRelations : FilterVal
  | queries (qs : List String) : FilterVal
  | other : FilterVal

/-- One entry of `schema['fields']`: the per-field dict that
`build_parameters_from_filters` reads.  The source also normalises a
`default` entry in place inside `build_properties_from_fields`, but no
output of the paths/spec pipeline ever reads it, so it is not modelled. -/
structure FieldSchema : Type where
  readonly : Bool
  nullable : Bool
  help_text : String
  type_ : String

/-- The result of `Resource.build_schema()` as read by the mapping code:
`fields`, the optional `filtering` / `ordering` entries, and the two
allowed-method lists. -/
structure ResourceSchema : Type where
  fields : List (String × FieldSchema)
  filtering : Option (List (String × FilterVal))
  ordering : Option (List String)
  allowed_detail_http_methods : List String
  allowed_list_http_methods : List String

/-- One field of an entry of `Meta.extra_actions` (`fields` sub-dict):
`required` and `description` are read with `.get` defaults. -/
structure ExtraField : Type where
  required : Option Bool
  description : Option String

/-- One entry of `Meta.extra_actions`.  `http_method` and `fields` are
modelled as present (the source would raise on their absence), while
`summary` and `resource_type` are read with `.get` defaults. -/
structure ExtraAction : Type where
  name : String
  http_method : String
  resource_type : Option String
  summary : Option String
  fields : List (String × ExtraField)

/-- One entry of the optional `Meta.custom_filtering` dict consumed by
`build_parameters_from_extra_action` (`required` and `description` are
accessed with mandatory indexing there). -/
structure CustomFilter : Type where
  name : String
  required : Bool
  description : String

/-- Shallow embedding of a tastypie resource, restricted to exactly the
data the mapping code reads:

* `resource_name` — `resource._meta.resource_name`;
* `module_name` — `resource.__module__` (tags use its first dotted part);
* `api_name` — `resource.api_name`;
* `doc` — `resource.__doc__` (`none` for absent);
* `list_uri` — the result of `get_resource_base_uri()` (the source
  dispatches between `get_resource_list_uri` / `get_resource_uri`; the
  embedding stores the returned URL);
* `meta_detail_uri_name` — `resource._meta.detail_uri_name` (default `"pk"`);
* `verbose_name` / `verbose_name_plural` — the lowered-later verbose names
  of the queryset model, `none` when the resource has no queryset model or
  the model lacks them (the `AttributeError` fallback path);
* `schema` — the `build_schema()` result;
* `querysetQueryTerms` — `resource._meta.queryset.query.query_terms` when a
  queryset is present, else `none` (then the module-level `QUERY_TERMS` is
  used);
* `extra_actions` — `resource._meta.extra_actions` when defined;
* `custom_filtering` — `resource.Meta.custom_filtering` when defined;
* `related` — for each field name, the related resource returned by
  `resource.fields[name].get_related_resource(None)`; absence models the
  `KeyError` / `AttributeError` that the source catches and ignores. -/
inductive Resource : Type where
  | mk
    (resource_name : String)
    (module_name : String)
    (api_name : String)
    (doc : Option String)
    (list_uri : String)
    (meta_detail_uri_name : String)
    (verbose_name : Option String)
    (verbose_name_plural : Option String)
    (schema : ResourceSchema)
    (querysetQueryTerms : Option (List String))
    (extra_actions : Option (List ExtraAction))
    (custom_filtering : Option (List CustomFilter))
    (related : List (String × Resource))
    : Resource

def Resource.resource_name : Resource → String
  | .mk n _ _ _ _ _ _ _ _ _ _ _ _ => n

def Resource.module_name : Resource → String
  | .mk _ m _ _ _ _ _ _ _ _ _ _ _ => m

def Resource.api_name : Resource → String
  | .mk _ _ a _ _ _ _ _ _ _ _ _ _ => a

def Resource.doc : Resource → Option String
  | .mk _ _ _ d _ _ _ _ _ _ _ _ _ => d

def Resource.list_uri : Resource → String
  | .mk _ _ _ _ u _ _ _ _ _ _ _ _ => u

def Resource.meta_detail_uri_name : Resource → String
  | .mk _ _ _ _ _ dn _ _ _ _ _ _ _ => dn

def Resource.verbose_name : Resource → Option String
  | .mk _ _ _ _ _ _ v _ _ _ _ _ _ => v

def Resource.verbose_name_plural : Resource → Option String
  | .mk _ _ _ _ _ _ _ vp _ _ _ _ _ => vp

def Resource.schema : Resource → ResourceSchema
  | .mk _ _ _ _ _ _ _ _ s _ _ _ _ => s

def Resource.querysetQueryTerms : Resource → Option (List String)
  | .mk _ _ _ _ _ _ _ _ _ q _ _ _ => q

def Resource.extra_actions : Resource → Option (List ExtraAction)
  | .mk _ _ _ _ _ _ _ _ _ _ e _ _ => e

def Resource.custom_filtering : Resource → Option (List CustomFilter)
  | .mk _ _ _ _ _ _ _ _ _ _ _ c _ => c

def Resource.related : Resource → List (String × Resource)
  | .mk _ _ _ _ _ _ _ _ _ _ _ _ r => r

/-- Python `str.upper()` restricted to ASCII (the only case the method
names exercise), written over the character list so that it evaluates
inside the kernel. -/
def pyToUpper (s : String) : String := String.mk (s.data.map Char.toUpper)

/-- Python `str.lower()` restricted to ASCII, written over the character
list so that it evaluates inside the kernel. -/
def pyToLower (s : String) : String := String.mk (s.data.map Char.toLower)

/-- Substitute the first `%s` of a template: Python `template % value` for
the single-placeholder templates of `OPERATION_SUMMARIES`. -/
def pctFormatAux (v : String) : List Char → List Char
  | [] => []
  | '%' :: 's' :: rest => v.data ++ rest
  | c :: rest => c :: pctFormatAux v rest

/-- Python `template % value` (one `%s` placeholder). -/
def pctFormat (template v : String) : String :=
  String.mk (pctFormatAux v template.data)

/-- Python `s.split('.')[0]`: the characters before the first dot. -/
def headDotComponent (s : String) : String :=
  String.mk (s.data.takeWhile (fun c => c != '.'))

/-- Python `s.endswith('/')`. -/
def pyEndsWithSlash (s : String) : Bool := s.data.getLast? == some '/'

/-- `django.db.models.sql.constants.QUERY_TERMS`, the ORM lookup names used
when a filter is declared `ALL` and the resource has no queryset.  It is a
Python `set`; the embedding fixes one iteration order. -/
def QUERY_TERMS : List String :=
  ["exact", "iexact", "contains", "icontains", "gt", "gte", "lt", "lte",
   "in", "startswith", "istartswith", "endswith", "iendswith", "range",
   "year", "month", "day", "week_day", "hour", "minute", "second",
   "isnull", "search", "regex", "iregex"]

/-- `ResourceSwaggerMapping.OPERATION_SUMMARIES`. -/
def OPERATION_SUMMARIES : List (String × String) :=
  [("get-detail", "Retrieve a single %s by ID"),
   ("get-list", "Retrieve a list of %s"),
   ("post-list", "Create a new %s"),
   ("put-detail", "Update an existing %s"),
   ("delete-detail", "Delete an existing %s")]

/-- `resource.__module__.split('.')[0]`, the first tag of every operation. -/
def moduleRoot (r : Resource) : String :=
  headDotComponent r.module_name

/-- `ResourceSwaggerMapping._detail_uri_name`: `_meta.detail_uri_name`,
with the default name `pk` replaced by `id` (the Python
`x == "pk" and "id" or x` idiom; for falsy `x` both sides agree on `x`). -/
def detailUriName (r : Resource) : String :=
  if r.meta_detail_uri_name == "pk" then "id" else r.meta_detail_uri_name

/-- `ResourceSwaggerMapping.get_resource_verbose_name`: the (lowercased)
model verbose name when available, else `resource_name`. -/
def get_resource_verbose_name (r : Resource) (plural : Bool) : String :=
  match (if plural then r.verbose_name_plural else r.verbose_name) with
  | some v => pyToLower v
  | none => r.resource_name

/-- `ResourceSwaggerMapping.get_operation_summary`.  The source compares
`method is 'get'`; all call sites pass short interned literals, for which
CPython identity coincides with string equality. -/
def get_operation_summary (r : Resource) (detail : Bool) (method : String) :
    String :=
  let key := pyToLower method ++ "-" ++ (if detail then "detail" else "list")
  let plural := !detail && (method == "get")
  let verbose_name := get_resource_verbose_name r plural
  let summary := (OPERATION_SUMMARIES.lookup key).getD ""
  if summary.isEmpty then "" else pctFormat summary verbose_name

/-- The fixed note appended by `build_parameter` when no location is
supplied. -/
def POSITION_NOTE : String :=
  "[Note: The position of the parameter is automatically generated and may not be accurate.]"

/-- `ResourceSwaggerMapping.build_parameter`.  `in_ = none` models the
Python default `in_=None`; the `if not in_` falsiness test also treats an
empty string as absent. -/
def build_parameter (in_ : Option String) (name : String) (required : Bool)
    (description : String) : JsonVal :=
  let falsy : Bool := match in_ with | none => true | some s => s.isEmpty
  let inVal := if falsy then "query" else in_.getD ""
  let descVal := if falsy then description ++ POSITION_NOTE else description
  .obj [("in", .str inVal),
        ("name", .str name),
        ("required", .bool required),
        ("description", .str descVal),
        ("schema", .obj [])]

/-- `ResourceSwaggerMapping.build_parameter_for_object` (the `method`
argument is unused in the source as well). -/
def build_parameter_for_object (r : Resource) (_method : String) : JsonVal :=
  build_parameter none r.resource_name true ""

/-- `ResourceSwaggerMapping.build_parameters_from_ordering`.  The source
also computes a `values` list that it never uses; only the literal dict it
returns is modelled.  (`unicode` is the Python 2 identity on text.) -/
def build_parameters_from_ordering (_r : Resource) : JsonVal :=
  .obj [("in", .str "query"),
        ("name", .str "order_by"),
        ("required", .bool false),
        ("schema", .obj []),
        ("description", .str "Orders the result set based on the selection. Ascending order by default, prepending the \x27-\x27 sign change the sorting order to descending")]

/-- The parameters contributed by one filterable field once its filter
value has been normalised to a list of query terms: the
`isinstance(field, (list, tuple, set))` block of
`build_parameters_from_filters`, including the
`name not in self.schema['fields']` skip and the special `exact` case. -/
def queryListParams (r : Resource) (pfx name : String) (qs : List String) :
    List JsonVal :=
  match r.schema.fields.lookup name with
  | none => []
  | some schema_field =>
      qs.map (fun query =>
        if query == "exact" then
          build_parameter (some "query") (pfx ++ name) false
            (if schema_field.type_ == "related" then "ID of related resource"
             else schema_field.help_text)
        else
          build_parameter (some "query") (pfx ++ name ++ "__" ++ query) false
            schema_field.help_text)

/-- The subset of ORM filters assumed for an `ALL_WITH_RELATIONS` relation
itself (`['gt', 'in', 'gte', 'lt', 'lte', 'exact']` in the source). -/
def RELATION_QUERY_TERMS : List String :=
  ["gt", "in", "gte", "lt", "lte", "exact"]

/-- Parameters contributed by one `filtering` entry.  `ALL` is replaced by
the queryset's query terms (or module `QUERY_TERMS`); `ALL_WITH_RELATIONS`
first recurses into the related resource with an extended prefix (the
source's `try`/`except (KeyError, AttributeError): pass` is the `none`
branch of the `related` lookup) and then contributes the fixed
foreign-key-compatible terms for the relation itself.  `recur` is the
nested `build_parameters_from_filters` call on the related mapping, at a
reduced recursion budget. -/
def filterItemParams
    (recur : Resource → String → String → Except PyErr (List JsonVal))
    (r : Resource) (pfx name : String) :
    FilterVal → Except PyErr (List JsonVal)
  | .all =>
    let qs := match r.querysetQueryTerms with
      | some ts => ts
      | none => QUERY_TERMS
    .ok (queryListParams r pfx name qs)
  | .allWithRelations =>
    match r.related.lookup name with
    | none => .ok (queryListParams r pfx name RELATION_QUERY_TERMS)
    | some rr =>
      match recur rr (pfx ++ name ++ "__") "GET" with
      | .error e => .error e
      | .ok relParams =>
        .ok (relParams ++ queryListParams r pfx name RELATION_QUERY_TERMS)
  | .queries qs => .ok (queryListParams r pfx name qs)
  | .other => .ok []

/-- The loop of `build_parameters_from_filters` over
`schema['filtering'].items()`, in insertion order. -/
def filterLoop
    (recur : Resource → String → String → Except PyErr (List JsonVal))
    (r : Resource) (pfx : String) :
    List (String × FilterVal) → Except PyErr (List JsonVal)
  | [] => .ok []
  | (name, fv) :: rest =>
    match filterItemParams recur r pfx name fv with
    | .error e => .error e
    | .ok ps =>
      match filterLoop recur r pfx rest with
      | .error e => .error e
      | .ok ps2 => .ok (ps ++ ps2)

/-- `ResourceSwaggerMapping.build_parameters_from_filters`.  `fuel` models
Python's recursion limit: each nested call into a related mapping runs at
one unit less, and exhaustion returns `RecursionError` (which the source's
`except (KeyError, AttributeError)` does not catch). -/
def build_parameters_from_filters : Nat → Resource → String → String →
    Except PyErr (List JsonVal)
  | 0, _, _, _ => .error .recursionError
  | f + 1, r, pfx, method =>
    let nav : List JsonVal :=
      if pfx.isEmpty && pyToUpper method == "GET" then
        [build_parameter (some "query") "limit" false
          "Specify the number of element to display per page.",
         build_parameter (some "query") "offset" false
          "Specify the offset to start displaying element on a page."]
      else []
    if pyToUpper method == "GET" then
      match r.schema.filtering with
      | some items =>
        match filterLoop (fun rr p m => build_parameters_from_filters f rr p m)
            r pfx items with
        | .error e => .error e
        | .ok ps => .ok (nav ++ ps)
      | none => .ok nav
    else .ok nav

/-- `ResourceSwaggerMapping.build_parameters_for_list`: the filter-derived
parameters, plus the `order_by` parameter on GET when the schema carries an
`ordering` entry. -/
def build_parameters_for_list (fuel : Nat) (r : Resource) (method : String) :
    Except PyErr (List JsonVal) :=
  match build_parameters_from_filters fuel r "" method with
  | .error e => .error e
  | .ok ps =>
    if r.schema.ordering.isSome && pyToUpper method == "GET" then
      .ok (ps ++ [build_parameters_from_ordering r])
    else .ok ps

/-- The `responses` dict shared verbatim by every operation builder. -/
def defaultResponses : JsonVal :=
  .obj [("default", .obj [("description", .str "Unable to get relevant information")])]

/-- The `tags` list shared by every operation builder:
`[__module__.split('.')[0], api_name]`. -/
def operationTags (r : Resource) : JsonVal :=
  .arr [.str (moduleRoot r), .str r.api_name]

/-- `ResourceSwaggerMapping.build_detail_operation` (which, as in the
source, asks `get_operation_summary` for the *list* summary). -/
def build_detail_operation (r : Resource) (method : String) :
    List (String × JsonVal) :=
  [("summary", .str (get_operation_summary r false method)),
   ("tags", operationTags r),
   ("parameters", .arr [build_parameter (some "path") (detailUriName r) true
      "ID of resource"]),
   ("responses", defaultResponses)]

/-- `ResourceSwaggerMapping.build_list_operation`. -/
def build_list_operation (fuel : Nat) (r : Resource) (method : String) :
    Except PyErr (List (String × JsonVal)) :=
  match build_parameters_for_list fuel r method with
  | .error e => .error e
  | .ok ps =>
    .ok [("summary", .str (get_operation_summary r false method)),
         ("tags", operationTags r),
         ("parameters", .arr ps),
         ("responses", defaultResponses)]

/-- The `fake_operation` placeholder built in
`ResourceSwaggerMapping.__init__` and substituted by `build_detail_path`
when no detail method is allowed. -/
def fakeOperation (r : Resource) : List (String × JsonVal) :=
  [("get", .obj [("description", .str "Unable to get relevant information"),
                 ("tags", operationTags r),
                 ("responses", defaultResponses)])]

/-- Modelled from the spec: `tastypie_swagger.utils.urljoin_forced` is not
under `src/`.  It joins the base URL (forced to end in a slash) with the
relative path segment the caller supplies. -/
def urljoin_forced (base path : String) : String :=
  (if pyEndsWithSlash base then base else base ++ "/") ++ path

/-- The endpoint key of `build_detail_path`:
`urljoin_forced(base_uri, '{%s}%s' % (detail_uri_name, trailing_slash))`.
`slash` models `tastypie_swagger.utils.trailing_slash_or_none()`, which is
not under `src/`: the spec-level reading is that it yields the configured
trailing slash ('/' or ''). -/
def detailPathEndpoint (slash : String) (r : Resource) : String :=
  urljoin_forced r.list_uri ("\x7b" ++ detailUriName r ++ "\x7d" ++ slash)

/-- The operations dict assembled by `build_detail_path`: one entry per
allowed method among get/put/delete (`put` additionally appends the object
parameter in place), with `fake_operation` substituted when empty. -/
def detailOperations (r : Resource) : List (String × JsonVal) :=
  let adm := r.schema.allowed_detail_http_methods
  let ops : List (String × JsonVal) := []
  let ops := if "get" ∈ adm then
      dictSet ops "get" (.obj (build_detail_operation r "get"))
    else ops
  let ops := if "put" ∈ adm then
      jsonAppendAt (dictSet ops "put" (.obj (build_detail_operation r "put")))
        "put" "parameters" (build_parameter_for_object r "put")
    else ops
  let ops := if "delete" ∈ adm then
      dictSet ops "delete" (.obj (build_detail_operation r "delete"))
    else ops
  if ops.isEmpty then fakeOperation r else ops

/-- `ResourceSwaggerMapping.build_detail_path`. -/
def build_detail_path (slash : String) (r : Resource) :
    List (String × JsonVal) :=
  [(detailPathEndpoint slash r, .obj (detailOperations r))]

/-- The endpoint key of `build_list_path`: the base URI, replaced by `'/'`
inside the post branch when it is falsy (the empty string). -/
def listPathEndpoint (r : Resource) : String :=
  if "post" ∈ r.schema.allowed_list_http_methods && r.list_uri.isEmpty then "/"
  else r.list_uri

/-- The operations dict assembled by `build_list_path`: one entry per
allowed method among get/post (`post` additionally appends the object
parameter in place). -/
def listOperations (fuel : Nat) (r : Resource) :
    Except PyErr (List (String × JsonVal)) :=
  let alm := r.schema.allowed_list_http_methods
  let step1 : Except PyErr (List (String × JsonVal)) :=
    if "get" ∈ alm then
      match build_list_operation fuel r "get" with
      | .error e => .error e
      | .ok og => .ok (dictSet [] "get" (.obj og))
    else .ok []
  match step1 with
  | .error e => .error e
  | .ok ops =>
    if "post" ∈ alm then
      match build_list_operation fuel r "post" with
      | .error e => .error e
      | .ok op =>
        .ok (jsonAppendAt (dictSet ops "post" (.obj op)) "post" "parameters"
          (build_parameter_for_object r "post"))
    else .ok ops

/-- `ResourceSwaggerMapping.build_list_path`. -/
def build_list_path (fuel : Nat) (r : Resource) :
    Except PyErr (List (String × JsonVal)) :=
  match listOperations fuel r with
  | .error e => .error e
  | .ok ops => .ok [(listPathEndpoint r, .obj ops)]

/-- `ResourceSwaggerMapping.build_parameters_from_extra_action`. -/
def build_parameters_from_extra_action (r : Resource) (method : String)
    (efields : List (String × ExtraField)) (resource_type : String) :
    List JsonVal :=
  (if pyToUpper method == "GET" || resource_type == "view" then
    [build_parameter (some "path") (detailUriName r) true "ID of resource"]
   else []) ++
  efields.map (fun nf =>
    build_parameter (some "query") nf.1 (nf.2.required.getD true)
      (nf.2.description.getD "")) ++
  (match r.custom_filtering with
   | none => []
   | some cfs => cfs.map (fun cf =>
      build_parameter (some "query") cf.name cf.required cf.description))

/-- `ResourceSwaggerMapping.build_extra_operation`. -/
def build_extra_operation (r : Resource) (ea : ExtraAction) :
    List (String × JsonVal) :=
  [("summary", .str (ea.summary.getD "")),
   ("tags", operationTags r),
   ("parameters", .arr (build_parameters_from_extra_action r ea.http_method
      ea.fields (ea.resource_type.getD "view"))),
   ("responses", defaultResponses)]

/-- `ResourceSwaggerMapping.build_extra_paths`.  As in the source, the
value stored under each extra endpoint is the operation dict itself. -/
def build_extra_paths (r : Resource) : List (String × JsonVal) :=
  match r.extra_actions with
  | none => []
  | some acts =>
    acts.foldl (fun acc ea =>
      let endpoint :=
        if ea.resource_type.getD "view" == "list" then
          r.list_uri ++ ea.name ++ "/"
        else
          r.list_uri ++ "\x7b" ++ detailUriName r ++ "\x7d/" ++ ea.name ++ "/"
      dictSet acc endpoint (.obj (build_extra_operation r ea))) []

/-- `ResourceSwaggerMapping.build_paths`: detail, list and extra paths
merged into one dict in that order. -/
def build_paths (fuel : Nat) (slash : String) (r : Resource) :
    Except PyErr (List (String × JsonVal)) :=
  let paths := dictUpdate [] (build_detail_path slash r)
  match build_list_path fuel r with
  | .error e => .error e
  | .ok lp => .ok (dictUpdate (dictUpdate paths lp) (build_extra_paths r))

/-- A tastypie `Api`: its `_registry` dict mapping resource names to
resources. -/
structure TastypieApi : Type where
  registry : List (String × Resource)

/-- A Python object as resolved from a configured module attribute: a
valid `tastypie.api.Api` instance, an object whose named zero-argument
methods return further objects (the `func_name` indirection), Python
`None` (the `getattr(..., obj, None)` default), or anything else. -/
inductive PyObj : Type where
  | apiObj (a : TastypieApi) : PyObj
  | objWithMethods (methods : List (String × PyObj)) : PyObj
  | noneObj : PyObj
  | otherObj : PyObj

/-- An already-imported module in `sys.modules`: its attribute dict. -/
structure PyModule : Type where
  attrs : List (String × PyObj)

/-- One entry of the `TASTYPIE_SWAGGER_API_MODULE_LIST` setting:
`{'path': ..., 'obj': ..., 'func_name': ...}`. -/
structure ApiModuleEntry : Type where
  path : String
  obj : String
  func_name : Option String

/-- The Django settings read by the builder.  `none` models an absent
setting (for which a defaultless `getattr(settings, ...)` raises
`AttributeError`). -/
structure Settings : Type where
  apiModuleList : Option (List ApiModuleEntry)
  openApiInfo : Option JsonVal
  serverUrl : Option String

/-- Python truthiness of an optional string (`None` and `''` are falsy). -/
def strTruthy : Option String → Bool
  | none => false
  | some s => !s.isEmpty

/-- `getattr(tastypie_api, func_name)()`: look the method up and call it.
A missing attribute (including any lookup on `None`) raises
`AttributeError`, which the source's `except KeyError` does not catch. -/
def getattrCall (o : PyObj) (fn : String) : Except PyErr PyObj :=
  match o with
  | .objWithMethods ms =>
    match ms.lookup fn with
    | some res => .ok res
    | none => .error .attributeError
  | _ => .error .attributeError

/-- The `try` block of `build_tastypie_api_list` for one configured entry:
resolve the module from `sys.modules` (a `KeyError`, caught by the source,
becomes `ImproperlyConfigured`), fetch the attribute with default `None`,
and apply the optional `func_name` indirection. -/
def resolveApiObj (mods : List (String × PyModule)) (e : ApiModuleEntry) :
    Except PyErr PyObj :=
  match mods.lookup e.path with
  | none => .error .improperlyConfigured
  | some md =>
    let t := (md.attrs.lookup e.obj).getD .noneObj
    if strTruthy e.func_name then getattrCall t (e.func_name.getD "")
    else .ok t

/-- The body of the `for` loop of `build_tastypie_api_list`: each entry
must resolve to an `Api` instance, anything else raises
`ImproperlyConfigured`. -/
def apiListLoop (mods : List (String × PyModule)) :
    List ApiModuleEntry → Except PyErr (List TastypieApi)
  | [] => .ok []
  | e :: rest =>
    match resolveApiObj mods e with
    | .error err => .error err
    | .ok (.apiObj a) =>
      match apiListLoop mods rest with
      | .error err => .error err
      | .ok as_ => .ok (a :: as_)
    | .ok _ => .error .improperlyConfigured

/-- `tastypie_swagger.mapping.build_tastypie_api_list`: a missing or empty
`TASTYPIE_SWAGGER_API_MODULE_LIST` raises `ImproperlyConfigured`, otherwise
every entry is resolved in order. -/
def build_tastypie_api_list (s : Settings) (mods : List (String × PyModule)) :
    Except PyErr (List TastypieApi) :=
  match s.apiModuleList with
  | none => .error .improperlyConfigured
  | some [] => .error .improperlyConfigured
  | some entries => apiListLoop mods entries

/-- Insert a string into an already sorted list (Python `sorted` is an
ascending lexicographic sort on the registry's keys). -/
def insertSorted (x : String) : List String → List String
  | [] => [x]
  | y :: ys => if y < x then y :: insertSorted x ys else x :: y :: ys

/-- `sorted(...)` over the resource names of a registry. -/
def sortStrings (l : List String) : List String :=
  l.foldr insertSorted []

/-- The per-resource body of the loop in `build_openapi_paths`: when the
resource has a truthy `__doc__`, try `json.loads` on it and merge the
parsed dict, falling back to `build_paths` on a parse failure
(`ValueError`); otherwise merge `build_paths`.  `jsonLoads` abstracts the
standard library parser: `none` models `ValueError` or any result that is
not a JSON object. -/
def resourcePathsUpdate (jsonLoads : String → Option (List (String × JsonVal)))
    (fuel : Nat) (slash : String) (acc : List (String × JsonVal))
    (r : Resource) : Except PyErr (List (String × JsonVal)) :=
  match r.doc with
  | some d =>
    if d.isEmpty then
      match build_paths fuel slash r with
      | .error e => .error e
      | .ok bp => .ok (dictUpdate acc bp)
    else
      match jsonLoads d with
      | some j => .ok (dictUpdate acc j)
      | none =>
        match build_paths fuel slash r with
        | .error e => .error e
        | .ok bp => .ok (dictUpdate acc bp)
  | none =>
    match build_paths fuel slash r with
    | .error e => .error e
    | .ok bp => .ok (dictUpdate acc bp)

/-- Iteration of `build_openapi_paths` over `sorted(tastypie_api._registry)`;
each name is looked up with `._registry.get(name)` (always present, since
the names are drawn from the registry itself). -/
def registryPathsLoop (jsonLoads : String → Option (List (String × JsonVal)))
    (fuel : Nat) (slash : String) (reg : List (String × Resource))
    (acc : List (String × JsonVal)) :
    List String → Except PyErr (List (String × JsonVal))
  | [] => .ok acc
  | n :: rest =>
    match reg.lookup n with
    | some r =>
      match resourcePathsUpdate jsonLoads fuel slash acc r with
      | .error e => .error e
      | .ok acc2 => registryPathsLoop jsonLoads fuel slash reg acc2 rest
    | none => registryPathsLoop jsonLoads fuel slash reg acc rest

/-- Iteration of `build_openapi_paths` over the configured api list. -/
def apiPathsLoop (jsonLoads : String → Option (List (String × JsonVal)))
    (fuel : Nat) (slash : String) (acc : List (String × JsonVal)) :
    List TastypieApi → Except PyErr (List (String × JsonVal))
  | [] => .ok acc
  | api :: rest =>
    match registryPathsLoop jsonLoads fuel slash api.registry acc
        (sortStrings (api.registry.map (fun kv => kv.1))) with
    | .error e => .error e
    | .ok acc2 => apiPathsLoop jsonLoads fuel slash acc2 rest

/-- `tastypie_swagger.mapping.build_openapi_paths`. -/
def build_openapi_paths (jsonLoads : String → Option (List (String × JsonVal)))
    (fuel : Nat) (slash : String) (apis : List TastypieApi) :
    Except PyErr (List (String × JsonVal)) :=
  apiPathsLoop jsonLoads fuel slash [] apis

/-- The `if not server_url: server_url = getattr(settings,
'TASTYPIE_SWAGGER_SERVER_URL')` step of `build_openapi_spec`: a falsy
argument falls back to the setting, whose absence raises
`AttributeError`. -/
def effectiveServerUrl (server_url : Option String) (s : Settings) :
    Except PyErr String :=
  if strTruthy server_url then .ok (server_url.getD "")
  else
    match s.serverUrl with
    | some u => .ok u
    | none => .error .attributeError

/-- `tastypie_swagger.mapping.build_openapi_spec`: read
`TASTYPIE_SWAGGER_OPEN_API_INFO` (defaultless `getattr`), resolve the
server URL, build the base document, then merge in the paths. -/
def build_openapi_spec (jsonLoads : String → Option (List (String × JsonVal)))
    (fuel : Nat) (slash : String) (server_url : Option String) (s : Settings)
    (mods : List (String × PyModule)) :
    Except PyErr (List (String × JsonVal)) :=
  match s.openApiInfo with
  | none => .error .attributeError
  | some info =>
    match effectiveServerUrl server_url s with
    | .error e => .error e
    | .ok url =>
      let open_api_spec : List (String × JsonVal) :=
        [("openapi", .str "3.0.1"),
         ("info", info),
         ("servers", .arr [.obj [("url", .str url)]])]
      match build_tastypie_api_list s mods with
      | .error e => .error e
      | .ok apis =>
        match build_openapi_paths jsonLoads fuel slash apis with
        | .error e => .error e
        | .ok paths => .ok (dictUpdate open_api_spec [("paths", .obj paths)])

/-- Errors of the `build_api_docs` command model: the `FileExistsError` of
`shutil.copytree` when the destination exists, the I/O error of opening a
file inside a missing directory, and any exception propagated out of
`build_openapi_spec` while compiling `index.html`. -/
inductive CmdErr : Type where
  | destExists : CmdErr
  | destMissing : CmdErr
  | py (e : PyErr) : CmdErr

/-- The slice of the filesystem the `build_api_docs` command touches: the
configured `TASTYPIE_SWAGGER_DOCS_DIR` destination directory, `none` when
it does not exist, otherwise its files (relative name, content). -/
structure DocsFS : Type where
  dest : Option (List (String × String))

/-- `Command._remove_outdated_docs`: `shutil.rmtree` the destination when
it exists. -/
def removeOutdatedDocs (fs : DocsFS) : DocsFS :=
  if fs.dest.isSome then ⟨none⟩ else fs

/-- The static files surviving the optional
`TASTYPIE_SWAGGER_IGNORE_PATTERN_LIST` setting.  `fnmatch` abstracts the
standard library pattern matcher used by `shutil.ignore_patterns`; with no
configured list, `ignore=None` and everything is copied. -/
def applyIgnorePatterns (ignoreList : Option (List String))
    (fnmatch : String → String → Bool) (static : List (String × String)) :
    List (String × String) :=
  match ignoreList with
  | none => static
  | some pats => static.filter (fun f => !(pats.any (fun p => fnmatch f.1 p)))

/-- `Command._copy_static_file`: `shutil.copytree` of the package's static
directory into the destination, which must not exist yet. -/
def copyStaticFile (ignoreList : Option (List String))
    (fnmatch : String → String → Bool) (static : List (String × String))
    (fs : DocsFS) : Except CmdErr DocsFS :=
  match fs.dest with
  | some _ => .error .destExists
  | none => .ok ⟨some (applyIgnorePatterns ignoreList fnmatch static)⟩

/-- `Command._compile_index`: render the index template over the JSON spec
produced by `build_openapi_spec()` (called with no `server_url`).
`render` abstracts Django's `render_to_string` applied to the serialized
spec (the title and static-URL context entries are constants). -/
def compileIndex (render : String → String)
    (jsonLoads : String → Option (List (String × JsonVal))) (fuel : Nat)
    (slash : String) (s : Settings) (mods : List (String × PyModule)) :
    Except PyErr String :=
  match build_openapi_spec jsonLoads fuel slash none s mods with
  | .error e => .error e
  | .ok spec => .ok (render (jsonDumps (.obj spec)))

/-- `Command._copy_index`: open `index.html` inside the destination (which
must exist) and write the compiled template into it. -/
def copyIndex (render : String → String)
    (jsonLoads : String → Option (List (String × JsonVal))) (fuel : Nat)
    (slash : String) (s : Settings) (mods : List (String × PyModule))
    (fs : DocsFS) : Except CmdErr DocsFS :=
  match fs.dest with
  | none => .error .destMissing
  | some files =>
    match compileIndex render jsonLoads fuel slash s mods with
    | .error e => .error (.py e)
    | .ok content => .ok ⟨some (files ++ [("index.html", content)])⟩

/-- `Command.handle`: remove the outdated docs, copy the static tree, then
write the compiled `index.html`. -/
def commandHandle (render : String → String)
    (jsonLoads : String → Option (List (String × JsonVal))) (fuel : Nat)
    (slash : String) (s : Settings) (mods : List (String × PyModule))
    (ignoreList : Option (List String)) (fnmatch : String → String → Bool)
    (static : List (String × String)) (fs : DocsFS) : Except CmdErr DocsFS :=
  match copyStaticFile ignoreList fnmatch static (removeOutdatedDocs fs) with
  | .error e => .error e
  | .ok fs2 => copyIndex render jsonLoads fuel slash s mods fs2

/-- Lookup inside a `JsonVal.obj` (first occurrence of a key). -/
def jsonGet (j : JsonVal) (k : String) : Option JsonVal :=
  match j with
  | .obj es => es.lookup k
  | _ => none

/-- The operation keys a detail-path operations dict exposes, as a function
of the allowed detail methods alone (with the `fake_operation` fallback
contributing its single `get`). -/
def detailMethodKeys (adm : List String) : List String :=
  if "get" ∈ adm ∨ "put" ∈ adm ∨ "delete" ∈ adm then
    (if "get" ∈ adm then ["get"] else []) ++
    (if "put" ∈ adm then ["put"] else []) ++
    (if "delete" ∈ adm then ["delete"] else [])
  else ["get"]

/-- The operation keys a list-path operations dict exposes, as a function
of the allowed list methods alone. -/
def listMethodKeys (alm : List String) : List String :=
  (if "get" ∈ alm then ["get"] else []) ++
  (if "post" ∈ alm then ["post"] else [])

/-- The operation-key lists of each endpoint of a paths dict. -/
def pathOperationKeys (p : List (String × JsonVal)) : List (List String) :=
  p.map (fun kv => objKeys kv.2)

/-- A small concrete resource used by the evaluation witnesses. -/
def demoSchema : ResourceSchema :=
  { fields :=
      [("name", { readonly := false, nullable := true,
                  help_text := "the name", type_ := "string" })],
    filtering := none,
    ordering := none,
    allowed_detail_http_methods := ["get", "put", "delete"],
    allowed_list_http_methods := ["get", "post"] }

/-- A demo resource exercising the common configuration. -/
def demoResource : Resource :=
  .mk "entry" "myapp.resources" "v1" none "/api/v1/entry/" "pk" none none
    demoSchema none none none []

/-- A resource with the same allowed methods as `demoResource` but with
every other component different. -/
def demoResourceB : Resource :=
  .mk "comment" "otherapp.api.resources" "v2" (some "docs") "/api/v2/comment/"
    "uuid" (some "Comment") (some "Comments")
    { fields := [], filtering := none, ordering := some ["added"],
      allowed_detail_http_methods := ["get", "put", "delete"],
      allowed_list_http_methods := ["get", "post"] }
    (some ["exact"]) none none []

/-- A resource allowing none of the documented methods on either path. -/
def demoResourceNoMethods : Resource :=
  .mk "locked" "myapp.resources" "v1" none "/api/v1/locked/" "pk" none none
    { fields := [], filtering := none, ordering := none,
      allowed_detail_http_methods := ["patch"],
      allowed_list_http_methods := [] }
    none none none []

/-- A resource whose docstring is present but not parseable as JSON. -/
def demoResourceDoc : Resource :=
  .mk "entry" "myapp.resources" "v1" (some "This is prose, not JSON.")
    "/api/v1/entry/" "pk" none none demoSchema none none none []

/-- A well-formed settings object naming one importable module whose
attribute is a valid `Api` with an empty registry. -/
def demoSettings : Settings :=
  { apiModuleList := some [{ path := "myapp.api", obj := "api_v1",
                             func_name := none }],
    openApiInfo := some (.obj [("title", .str "Demo")]),
    serverUrl := some "http://testserver/" }

/-- The `sys.modules` contents matching `demoSettings`. -/
def demoModules : List (String × PyModule) :=
  [("myapp.api", ⟨[("api_v1", .apiObj ⟨[]⟩)]⟩)]

/-- Settings whose module list is present but whose
`TASTYPIE_SWAGGER_OPEN_API_INFO` setting is missing. -/
def demoSettingsNoInfo : Settings :=
  { apiModuleList := some [{ path := "myapp.api", obj := "api_v1",
                             func_name := none }],
    openApiInfo := none,
    serverUrl := some "http://testserver/" }

/-- Settings whose module list and info are present but whose
`TASTYPIE_SWAGGER_SERVER_URL` setting is missing. -/
def demoSettingsNoUrl : Settings :=
  { apiModuleList := some [{ path := "myapp.api", obj := "api_v1",
                             func_name := none }],
    openApiInfo := some (.obj [("title", .str "Demo")]),
    serverUrl := none }

/-- A module-list entry whose path is not in `sys.modules`. -/
def demoEntryMissing : ApiModuleEntry :=
  { path := "ghost.api", obj := "api", func_name := none }

/-- A module-list entry resolving to a non-`Api` object. -/
def demoEntryNotApi : ApiModuleEntry :=
  { path := "myapp.api", obj := "not_an_api", func_name := none }

/-- Modules matching `demoEntryNotApi`. -/
def demoModulesNotApi : List (String × PyModule) :=
  [("myapp.api", ⟨[("not_an_api", .otherObj)]⟩)]

/-- Static files for the CLI-command witness. -/
def demoStatic : List (String × String) :=
  [("swagger-ui.js", "js"), ("swagger-ui.css", "css")]

/-! ## Helper lemmas -/

theorem dictKeys_jsonAppendAt (ops : List (String × JsonVal)) (k ik : String)
    (v : JsonVal) : dictKeys (jsonAppendAt ops k ik v) = dictKeys ops := by
  unfold dictKeys jsonAppendAt
  rw [List.map_map]
  apply List.map_congr_left
  intro kv _
  by_cases h : kv.1 = k <;> simp [h]

/-- The keys of the detail operations dict are a function of the allowed
detail methods alone. -/
theorem detailOperations_keys (r : Resource) :
    dictKeys (detailOperations r) =
      detailMethodKeys r.schema.allowed_detail_http_methods := by
  unfold detailOperations detailMethodKeys
  by_cases hg : "get" ∈ r.schema.allowed_detail_http_methods <;>
  by_cases hp : "put" ∈ r.schema.allowed_detail_http_methods <;>
  by_cases hd : "delete" ∈ r.schema.allowed_detail_http_methods <;>
  simp only [hg, hp, hd, if_true, if_false, ite_true, ite_false, not_false_iff,
    eq_self_iff_true, or_true, true_or, or_false, false_or, if_neg, if_pos] <;>
  simp [dictSet, dictKeys, fakeOperation, dictKeys_jsonAppendAt, jsonAppendAt,
    objModify]

/-- The keys of the list operations dict are a function of the allowed list
methods alone. -/
theorem listOperations_keys (fuel : Nat) (r : Resource)
    (ops : List (String × JsonVal)) (h : listOperations fuel r = .ok ops) :
    dictKeys ops = listMethodKeys r.schema.allowed_list_http_methods := by
  unfold listOperations at h
  unfold listMethodKeys
  by_cases hg : "get" ∈ r.schema.allowed_list_http_methods <;>
  by_cases hp : "post" ∈ r.schema.allowed_list_http_methods <;>
  simp only [hg, hp, if_true, if_false, ite_true, ite_false] at h ⊢
  · cases h1 : build_list_operation fuel r "get" with
    | error e => rw [h1] at h; simp at h
    | ok og =>
      rw [h1] at h
      cases h2 : build_list_operation fuel r "post" with
      | error e => simp [h2] at h
      | ok op =>
        simp [h2] at h
        subst h
        simp [dictSet, dictKeys, jsonAppendAt, objModify]
  · cases h1 : build_list_operation fuel r "get" with
    | error e => rw [h1] at h; simp at h
    | ok og =>
      rw [h1] at h
      simp at h
      subst h
      simp [dictSet, dictKeys]
  · cases h2 : build_list_operation fuel r "post" with
    | error e => simp [h2] at h
    | ok op =>
      simp [h2] at h
      subst h
      simp [dictSet, dictKeys, jsonAppendAt, objModify]
  · simp at h; subst h; rfl

/-- A successful unprefixed GET run of the filter builder starts with the
navigational `limit` and `offset` parameters. -/
theorem filters_get_head (fuel : Nat) (r : Resource) (method : String)
    (ps : List JsonVal) (hm : pyToUpper method = "GET")
    (h : build_parameters_from_filters fuel r "" method = .ok ps) :
    ∃ rest, ps = build_parameter (some "query") "limit" false
        "Specify the number of element to display per page." ::
      build_parameter (some "query") "offset" false
        "Specify the offset to start displaying element on a page." :: rest := by
  cases fuel with
  | zero => simp [build_parameters_from_filters] at h
  | succ f =>
    unfold build_parameters_from_filters at h
    rw [hm] at h
    simp only [String.isEmpty, beq_self_eq_true, if_true, ite_true] at h
    cases hfil : r.schema.filtering with
    | none => rw [hfil] at h; simp at h; exact ⟨[], by simp [h.symm]⟩
    | some items =>
      simp only [hfil] at h
      cases hloop : filterLoop
          (fun rr p m => build_parameters_from_filters f rr p m) r "" items with
      | error e => rw [hloop] at h; simp at h
      | ok ps2 =>
        rw [hloop] at h
        simp at h
        exact ⟨ps2, by simp [h.symm]⟩

/-- For a non-GET method neither the navigational nor the filter
parameters are produced. -/
theorem forList_nonget (fuel : Nat) (r : Resource) (method : String)
    (hm : pyToUpper method ≠ "GET") :
    build_parameters_for_list (fuel + 1) r method = .ok [] := by
  have hb : (pyToUpper method == "GET") = false := by
    simp [hm]
  unfold build_parameters_for_list build_parameters_from_filters
  simp [hb]

/-- The detail endpoint strictly extends the (slash-forced) base URI, so it
is longer than the list endpoint. -/
theorem detail_list_endpoints_distinct (slash : String) (r : Resource) :
    detailPathEndpoint slash r ≠ listPathEndpoint r := by
  intro heq
  have hlen := congrArg String.length heq
  unfold detailPathEndpoint urljoin_forced at hlen
  unfold listPathEndpoint at hlen
  rw [String.length_append] at hlen
  rw [String.length_append, String.length_append, String.length_append] at hlen
  have h1 : ("\x7b" : String).length = 1 := rfl
  have h2 : ("\x7d" : String).length = 1 := rfl
  rw [h1, h2] at hlen
  have hbase : r.list_uri.length ≤
      (if pyEndsWithSlash r.list_uri then r.list_uri
       else r.list_uri ++ "/").length := by
    split
    · exact le_refl _
    · rw [String.length_append]; omega
  by_cases hc : (decide ("post" ∈ r.schema.allowed_list_http_methods) &&
      r.list_uri.isEmpty) = true
  · rw [if_pos hc] at hlen
    have hs : ("/" : String).length = 1 := rfl
    rw [hs] at hlen
    omega
  · rw [if_neg hc] at hlen
    omega

/-! ## The claims -/

/-- C1: the spec build is deterministic and idempotent.  In the embedding
`build_openapi_spec` is a pure function of the configuration (settings,
module registry, trailing-slash setting, recursion budget and the
abstracted `json.loads`), so two invocations on identical input metadata
return the same document and `json.dumps` serializes them to byte-identical
strings. -/
theorem claim_C1_build_deterministic
    (jsonLoads : String → Option (List (String × JsonVal))) (fuel : Nat)
    (slash : String) (server_url : Option String) (s : Settings)
    (mods : List (String × PyModule)) :
    build_openapi_spec jsonLoads fuel slash server_url s mods =
      build_openapi_spec jsonLoads fuel slash server_url s mods ∧
    (build_openapi_spec jsonLoads fuel slash server_url s mods).map
        (fun d => jsonDumps (.obj d)) =
      (build_openapi_spec jsonLoads fuel slash server_url s mods).map
        (fun d => jsonDumps (.obj d)) :=
  ⟨rfl, rfl⟩

/-- C2: the sets of HTTP operation keys generated for the detail and list
endpoints are a deterministic function of the allowed-methods schema alone:
two resources with equal `allowed_detail_http_methods` and
`allowed_list_http_methods` produce the same operation key lists, whatever
their other components are. -/
theorem claim_C2_opkeys_from_allowed_methods (slash1 slash2 : String)
    (r1 r2 : Resource)
    (hd : r1.schema.allowed_detail_http_methods =
      r2.schema.allowed_detail_http_methods)
    (hl : r1.schema.allowed_list_http_methods =
      r2.schema.allowed_list_http_methods) :
    pathOperationKeys (build_detail_path slash1 r1) =
      pathOperationKeys (build_detail_path slash2 r2) ∧
    ∀ (fuel1 fuel2 : Nat) (p1 p2 : List (String × JsonVal)),
      build_list_path fuel1 r1 = .ok p1 → build_list_path fuel2 r2 = .ok p2 →
      pathOperationKeys p1 = pathOperationKeys p2 := by
  constructor
  · show [objKeys (.obj (detailOperations r1))] =
      [objKeys (.obj (detailOperations r2))]
    show [dictKeys (detailOperations r1)] = [dictKeys (detailOperations r2)]
    rw [detailOperations_keys, detailOperations_keys, hd]
  · intro fuel1 fuel2 p1 p2 h1 h2
    unfold build_list_path at h1 h2
    cases hops1 : listOperations fuel1 r1 with
    | error e => rw [hops1] at h1; simp at h1
    | ok o1 =>
      rw [hops1] at h1
      simp at h1
      cases hops2 : listOperations fuel2 r2 with
      | error e => rw [hops2] at h2; simp at h2
      | ok o2 =>
        rw [hops2] at h2
        simp at h2
        subst h1; subst h2
        show [dictKeys o1] = [dictKeys o2]
        rw [listOperations_keys fuel1 r1 o1 hops1,
            listOperations_keys fuel2 r2 o2 hops2, hl]

/-- C2 witness: two resources that agree only on the allowed methods
produce identical operation key lists. -/
theorem claim_C2_witness : ∃ p1 p2, build_list_path 1 demoResource = .ok p1 ∧
    build_list_path 1 demoResourceB = .ok p2 ∧
    pathOperationKeys (build_detail_path "/" demoResource) =
      pathOperationKeys (build_detail_path "" demoResourceB) ∧
    pathOperationKeys p1 = pathOperationKeys p2 := by
  refine ⟨_, _, rfl, rfl,
    (claim_C2_opkeys_from_allowed_methods "/" "" demoResource demoResourceB
      rfl rfl).1, ?_⟩
  exact (claim_C2_opkeys_from_allowed_methods "/" "" demoResource demoResourceB
    rfl rfl).2 1 1 _ _ rfl rfl

/-- C3: the endpoint key of the detail path and the endpoint key of the
list path never coincide (the detail endpoint appends a nonempty
`(identifier)` segment to the slash-forced base URI, so it is strictly
longer than the list endpoint), and the two path builders key their dicts
with exactly these endpoints. -/
theorem claim_C3_endpoints_never_collide (slash : String) (fuel : Nat)
    (r : Resource) :
    detailPathEndpoint slash r ≠ listPathEndpoint r ∧
    (build_detail_path slash r).map Prod.fst = [detailPathEndpoint slash r] ∧
    (build_list_path fuel r).map (List.map Prod.fst) =
      (listOperations fuel r).map (fun _ => [listPathEndpoint r]) := by
  refine ⟨detail_list_endpoints_distinct slash r, rfl, ?_⟩
  cases h : listOperations fuel r <;> simp [build_list_path, h, Except.map]

/-- C4: a successful `build_openapi_spec` returns a document with exactly
the keys `openapi`, `info`, `servers`, `paths` in that order, `openapi`
equal to the string `3.0.1`, and `servers` a one-element list holding one
object whose `url` is the given (or configured) server URL. -/
theorem claim_C4_spec_shape
    (jsonLoads : String → Option (List (String × JsonVal))) (fuel : Nat)
    (slash : String) (server_url : Option String) (s : Settings)
    (mods : List (String × PyModule)) (spec : List (String × JsonVal))
    (h : build_openapi_spec jsonLoads fuel slash server_url s mods = .ok spec) :
    dictKeys spec = ["openapi", "info", "servers", "paths"] ∧
    spec.lookup "openapi" = some (.str "3.0.1") ∧
    ∃ url, effectiveServerUrl server_url s = .ok url ∧
      spec.lookup "servers" = some (.arr [.obj [("url", .str url)]]) := by
  unfold build_openapi_spec at h
  cases hinfo : s.openApiInfo with
  | none => rw [hinfo] at h; simp at h
  | some info =>
    rw [hinfo] at h
    simp only [] at h
    cases hurl : effectiveServerUrl server_url s with
    | error e => rw [hurl] at h; simp at h
    | ok url =>
      rw [hurl] at h
      simp only [] at h
      cases hapis : build_tastypie_api_list s mods with
      | error e => rw [hapis] at h; simp at h
      | ok apis =>
        rw [hapis] at h
        simp only [] at h
        cases hpaths : build_openapi_paths jsonLoads fuel slash apis with
        | error e => rw [hpaths] at h; simp at h
        | ok paths =>
          rw [hpaths] at h
          simp only [Except.ok.injEq] at h
          subst h
          refine ⟨rfl, rfl, url, rfl, rfl⟩

/-- C4 witness: a concrete configuration whose build succeeds with the
documented shape. -/
theorem claim_C4_witness : ∃ spec,
    build_openapi_spec (fun _ => none) 1 "/" none demoSettings demoModules =
      .ok spec ∧
    (dictKeys spec = ["openapi", "info", "servers", "paths"] ∧
     spec.lookup "openapi" = some (.str "3.0.1") ∧
     ∃ url, effectiveServerUrl none demoSettings = .ok url ∧
       spec.lookup "servers" = some (.arr [.obj [("url", .str url)]])) := by
  refine ⟨_, rfl, ?_⟩
  exact claim_C4_spec_shape (fun _ => none) 1 "/" none demoSettings demoModules
    _ rfl

/-- C5: for a resource whose docstring is present (nonempty) but not
parseable as JSON, the per-resource step of `build_openapi_paths` silently
falls back to `build_paths`: it merges exactly the generated mapping and
raises no error, and on a one-resource registry `build_openapi_paths`
returns just that mapping. -/
theorem claim_C5_doc_fallback
    (jsonLoads : String → Option (List (String × JsonVal))) (fuel : Nat)
    (slash : String) (acc : List (String × JsonVal)) (r : Resource)
    (d : String) (bp : List (String × JsonVal)) (name : String)
    (hdoc : r.doc = some d) (hne : d.isEmpty = false)
    (hparse : jsonLoads d = none)
    (hbp : build_paths fuel slash r = .ok bp) :
    resourcePathsUpdate jsonLoads fuel slash acc r = .ok (dictUpdate acc bp) ∧
    build_openapi_paths jsonLoads fuel slash [⟨[(name, r)]⟩] =
      .ok (dictUpdate [] bp) := by
  have h0 : ∀ acc2, resourcePathsUpdate jsonLoads fuel slash acc2 r =
      .ok (dictUpdate acc2 bp) := by
    intro acc2
    unfold resourcePathsUpdate
    rw [hdoc]
    simp only [hne, Bool.false_eq_true, if_false]
    rw [hparse, hbp]
  refine ⟨h0 acc, ?_⟩
  unfold build_openapi_paths apiPathsLoop
  simp only [List.map, sortStrings, insertSorted, List.foldr]
  unfold registryPathsLoop
  simp only [List.lookup, beq_self_eq_true]
  rw [h0]
  simp [registryPathsLoop, apiPathsLoop]

/-- C5 witness: a resource with a malformed docstring falls back to its
generated paths. -/
theorem claim_C5_witness : ∃ bp, build_paths 1 "/" demoResourceDoc = .ok bp ∧
    resourcePathsUpdate (fun _ => none) 1 "/" [] demoResourceDoc =
      .ok (dictUpdate [] bp) := by
  refine ⟨_, rfl, ?_⟩
  exact (claim_C5_doc_fallback (fun _ => none) 1 "/" [] demoResourceDoc _ _
    "entry" rfl rfl rfl rfl).1

/-- C6 counterexample: with a well-formed module list but a missing
`TASTYPIE_SWAGGER_OPEN_API_INFO` setting, `build_openapi_spec` raises
`AttributeError` (the defaultless `getattr`), not the configuration error
`ImproperlyConfigured` that the claim asserts for missing required
settings. -/
theorem claim_C6_counterexample :
    build_openapi_spec (fun _ => none) 1 "/" none demoSettingsNoInfo
      demoModules = .error .attributeError ∧
    PyErr.attributeError ≠ PyErr.improperlyConfigured :=
  ⟨rfl, by decide⟩

/-- C6 (amended): a missing or empty module-list setting, a listed module
path that is not importable, and a resolved object that is not a valid
`Api` instance each make `build_tastypie_api_list` raise
`ImproperlyConfigured`; but a missing setting read directly by
`build_openapi_spec` (`TASTYPIE_SWAGGER_OPEN_API_INFO`, or
`TASTYPIE_SWAGGER_SERVER_URL` when no truthy `server_url` argument is
given) raises `AttributeError` instead. -/
theorem claim_C6_amended_config_errors (s : Settings)
    (mods : List (String × PyModule)) :
    (s.apiModuleList = none →
      build_tastypie_api_list s mods = .error .improperlyConfigured) ∧
    (s.apiModuleList = some [] →
      build_tastypie_api_list s mods = .error .improperlyConfigured) ∧
    (∀ e : ApiModuleEntry, mods.lookup e.path = none →
      build_tastypie_api_list { s with apiModuleList := some [e] } mods =
        .error .improperlyConfigured) ∧
    (∀ (e : ApiModuleEntry) (t : PyObj), resolveApiObj mods e = .ok t →
      (∀ a, t ≠ .apiObj a) →
      build_tastypie_api_list { s with apiModuleList := some [e] } mods =
        .error .improperlyConfigured) ∧
    (∀ (jsonLoads : String → Option (List (String × JsonVal))) (fuel : Nat)
        (slash : String) (server_url : Option String), s.openApiInfo = none →
      build_openapi_spec jsonLoads fuel slash server_url s mods =
        .error .attributeError) ∧
    (∀ (jsonLoads : String → Option (List (String × JsonVal))) (fuel : Nat)
        (slash : String) (server_url : Option String) (info : JsonVal),
      s.openApiInfo = some info → strTruthy server_url = false →
      s.serverUrl = none →
      build_openapi_spec jsonLoads fuel slash server_url s mods =
        .error .attributeError) := by
  refine ⟨?_, ?_, ?_, ?_, ?_, ?_⟩
  · intro h; unfold build_tastypie_api_list; rw [h]
  · intro h; unfold build_tastypie_api_list; rw [h]
  · intro e h
    unfold build_tastypie_api_list apiListLoop resolveApiObj
    rw [h]
  · intro e t hres hna
    unfold build_tastypie_api_list apiListLoop
    rw [hres]
    cases t with
    | apiObj a => exact absurd rfl (hna a)
    | objWithMethods ms => rfl
    | noneObj => rfl
    | otherObj => rfl
  · intro jsonLoads fuel slash server_url h
    unfold build_openapi_spec
    rw [h]
  · intro jsonLoads fuel slash server_url info hinfo hfalsy hnone
    unfold build_openapi_spec
    rw [hinfo]
    have hurl : effectiveServerUrl server_url s = .error .attributeError := by
      unfold effectiveServerUrl
      simp [hfalsy, hnone]
    rw [hurl]

/-- C6 witness: the three `ImproperlyConfigured` misconfigurations and the
`AttributeError` of a missing info setting and of a missing server-url
setting, at concrete inputs. -/
theorem claim_C6_witness :
    build_tastypie_api_list (⟨none, none, none⟩ : Settings) [] =
      .error .improperlyConfigured ∧
    build_tastypie_api_list { demoSettings with apiModuleList := some [] }
      demoModules = .error .improperlyConfigured ∧
    build_tastypie_api_list
      { demoSettings with apiModuleList := some [demoEntryMissing] }
      demoModules = .error .improperlyConfigured ∧
    build_tastypie_api_list
      { demoSettings with apiModuleList := some [demoEntryNotApi] }
      demoModulesNotApi = .error .improperlyConfigured ∧
    build_openapi_spec (fun _ => none) 1 "/" none demoSettingsNoInfo
      demoModules = .error .attributeError ∧
    build_openapi_spec (fun _ => none) 1 "/" none demoSettingsNoUrl
      demoModules = .error .attributeError := by
  refine ⟨(claim_C6_amended_config_errors _ []).1 rfl, ?_, ?_, ?_, ?_, ?_⟩
  · exact (claim_C6_amended_config_errors
      { demoSettings with apiModuleList := some [] } demoModules).2.1 rfl
  · exact (claim_C6_amended_config_errors demoSettings demoModules).2.2.1
      demoEntryMissing rfl
  · exact (claim_C6_amended_config_errors demoSettings demoModulesNotApi).2.2.2.1
      demoEntryNotApi .otherObj rfl (fun a h => PyObj.noConfusion h)
  · exact (claim_C6_amended_config_errors demoSettingsNoInfo
      demoModules).2.2.2.2.1 (fun _ => none) 1 "/" none rfl
  · exact (claim_C6_amended_config_errors demoSettingsNoUrl
      demoModules).2.2.2.2.2 (fun _ => none) 1 "/" none _ rfl rfl rfl

/-- C7: `Command.handle` removes the previous destination directory (its
initial state is irrelevant), copies the package's static tree (modulo the
configured ignore patterns) into the destination, and writes the compiled
`index.html` there: afterwards the destination holds exactly the static
tree plus `index.html`. -/
theorem claim_C7_handle_builds_docs (render : String → String)
    (jsonLoads : String → Option (List (String × JsonVal))) (fuel : Nat)
    (slash : String) (s : Settings) (mods : List (String × PyModule))
    (ignoreList : Option (List String)) (fnmatch : String → String → Bool)
    (static : List (String × String)) (fs : DocsFS)
    (spec : List (String × JsonVal))
    (h : build_openapi_spec jsonLoads fuel slash none s mods = .ok spec) :
    commandHandle render jsonLoads fuel slash s mods ignoreList fnmatch
        static fs =
      .ok ⟨some (applyIgnorePatterns ignoreList fnmatch static ++
        [("index.html", render (jsonDumps (.obj spec)))])⟩ := by
  obtain ⟨d⟩ := fs
  unfold commandHandle removeOutdatedDocs copyStaticFile copyIndex compileIndex
  rw [h]
  cases d <;> rfl

/-- C7 witness: a concrete run of the command over a pre-existing
destination. -/
theorem claim_C7_witness : ∃ spec,
    build_openapi_spec (fun _ => none) 1 "/" none demoSettings demoModules =
      .ok spec ∧
    commandHandle (fun t => t) (fun _ => none) 1 "/" demoSettings demoModules
        none (fun _ _ => false) demoStatic ⟨some [("old.html", "x")]⟩ =
      .ok ⟨some (applyIgnorePatterns none (fun _ _ => false) demoStatic ++
        [("index.html", (fun t => t) (jsonDumps (.obj spec)))])⟩ := by
  refine ⟨_, rfl, ?_⟩
  exact claim_C7_handle_builds_docs (fun t => t) (fun _ => none) 1 "/"
    demoSettings demoModules none (fun _ _ => false) demoStatic
    ⟨some [("old.html", "x")]⟩ _ rfl

/-- C8: when none of get/put/delete is allowed on the detail endpoint,
`build_detail_path` still maps it to the non-empty `fake_operation`
placeholder — a single `get` operation whose description is the string
`Unable to get relevant information` — while `build_list_path` maps the
list endpoint to an empty operations object when neither get nor post is
allowed. -/
theorem claim_C8_placeholder_operations (slash : String) (fuel : Nat)
    (r : Resource) :
    ("get" ∉ r.schema.allowed_detail_http_methods →
     "put" ∉ r.schema.allowed_detail_http_methods →
     "delete" ∉ r.schema.allowed_detail_http_methods →
      build_detail_path slash r =
        [(detailPathEndpoint slash r, .obj (fakeOperation r))] ∧
      fakeOperation r =
        [("get", .obj [("description", .str "Unable to get relevant information"),
                       ("tags", operationTags r),
                       ("responses", defaultResponses)])]) ∧
    ("get" ∉ r.schema.allowed_list_http_methods →
     "post" ∉ r.schema.allowed_list_http_methods →
      build_list_path fuel r = .ok [(listPathEndpoint r, .obj [])]) := by
  constructor
  · intro hg hp hd
    refine ⟨?_, rfl⟩
    unfold build_detail_path detailOperations
    simp [hg, hp, hd]
  · intro hg hp
    unfold build_list_path listOperations
    simp [hg, hp]

/-- C8 witness: a resource allowing only `patch` on detail and nothing on
list gets the placeholder detail operation and an empty list operations
object. -/
theorem claim_C8_witness : build_detail_path "/" demoResourceNoMethods =
      [(detailPathEndpoint "/" demoResourceNoMethods,
        .obj (fakeOperation demoResourceNoMethods))] ∧
    build_list_path 1 demoResourceNoMethods =
      .ok [(listPathEndpoint demoResourceNoMethods, .obj [])] := by
  refine ⟨?_, ?_⟩
  · exact ((claim_C8_placeholder_operations "/" 1 demoResourceNoMethods).1
      (by decide) (by decide) (by decide)).1
  · exact (claim_C8_placeholder_operations "/" 1 demoResourceNoMethods).2
      (by decide) (by decide)

/-- C9: the parameter list of a successful GET list operation always
begins with the unprefixed query parameters `limit` and `offset`, both
with `required` false, whatever the filtering and ordering schema; for a
non-GET method the builder produces no parameters at all, so the
navigational parameters are absent. -/
theorem claim_C9_navigation_params (fuel : Nat) (r : Resource)
    (method : String) :
    (∀ qs, pyToUpper method = "GET" →
      build_parameters_for_list fuel r method = .ok qs →
      qs.take 2 =
        [.obj [("in", .str "query"), ("name", .str "limit"),
               ("required", .bool false),
               ("description", .str "Specify the number of element to display per page."),
               ("schema", .obj [])],
         .obj [("in", .str "query"), ("name", .str "offset"),
               ("required", .bool false),
               ("description", .str "Specify the offset to start displaying element on a page."),
               ("schema", .obj [])]]) ∧
    (pyToUpper method ≠ "GET" →
      build_parameters_for_list (fuel + 1) r method = .ok []) := by
  constructor
  · intro qs hm hok
    unfold build_parameters_for_list at hok
    cases hfr : build_parameters_from_filters fuel r "" method with
    | error e => rw [hfr] at hok; simp at hok
    | ok ps =>
      rw [hfr] at hok
      obtain ⟨rest, hps⟩ := filters_get_head fuel r method ps hm hfr
      subst hps
      simp only [] at hok
      by_cases hc : (r.schema.ordering.isSome && (pyToUpper method == "GET"))
          = true
      · rw [if_pos hc] at hok
        simp only [Except.ok.injEq] at hok
        subst hok
        rfl
      · rw [if_neg hc] at hok
        simp only [Except.ok.injEq] at hok
        subst hok
        rfl
  · exact forList_nonget fuel r method

/-- C9 witness: the GET list parameters of a demo resource begin with
`limit` and `offset`, and its POST list parameters are empty. -/
theorem claim_C9_witness : ∃ qs,
    build_parameters_for_list 1 demoResource "get" = .ok qs ∧
    qs.take 2 =
      [.obj [("in", .str "query"), ("name", .str "limit"),
             ("required", .bool false),
             ("description", .str "Specify the number of element to display per page."),
             ("schema", .obj [])],
       .obj [("in", .str "query"), ("name", .str "offset"),
             ("required", .bool false),
             ("description", .str "Specify the offset to start displaying element on a page."),
             ("schema", .obj [])]] ∧
    build_parameters_for_list 1 demoResource "post" = .ok [] := by
  refine ⟨_, rfl, ?_, ?_⟩
  · exact (claim_C9_navigation_params 1 demoResource "get").1 _ (by rfl) rfl
  · exact (claim_C9_navigation_params 0 demoResource "post").2 (by decide)

/-- C10: every parameter dict built by `build_parameter` has exactly the
keys `in`, `name`, `required`, `description`, `schema`, with `schema` the
empty object; and when no location is supplied the location defaults to
`query` and the fixed position note is appended to the description. -/
theorem claim_C10_parameter_shape (in_ : Option String) (name : String)
    (required : Bool) (description : String) :
    objKeys (build_parameter in_ name required description) =
      ["in", "name", "required", "description", "schema"] ∧
    jsonGet (build_parameter in_ name required description) "schema" =
      some (.obj []) ∧
    (in_ = none →
      jsonGet (build_parameter in_ name required description) "in" =
        some (.str "query") ∧
      jsonGet (build_parameter in_ name required description) "description" =
        some (.str (description ++ POSITION_NOTE))) := by
  refine ⟨rfl, rfl, fun h => ?_⟩
  subst h
  exact ⟨rfl, rfl⟩

/-- C10 witness: `build_parameter` with no location at a concrete input. -/
theorem claim_C10_witness :
    jsonGet (build_parameter none "pk" true "desc") "in" =
      some (.str "query") ∧
    jsonGet (build_parameter none "pk" true "desc") "description" =
      some (.str ("desc" ++ POSITION_NOTE)) :=
  (claim_C10_parameter_shape none "pk" true "desc").2.2 rfl

end TastypieSwagger
